import Mathlib

/-!
Shallow embedding of the carpooling matching service (`src/main.py`) and
verification of its specification claims.

The repository is a single FastAPI application.  Its algorithmic core is the
`/match/` endpoint: it resolves a driver route (a list of waypoints), then
walks the passenger list once in input order, classifying each passenger as
matched or unmatched (with a reason) while decrementing a seat budget.

External collaborators are modelled as parameters:
- the haversine distance (third-party `haversine` library) as a function
  `haversine : Coord → Coord → ℚ`;
- the geocoder (`gmaps.geocode` behind `geocode_address`) as a function
  `geocode : String → Option Coord`;
- the route resolver (`gmaps.directions` behind `get_route_coords`) as a
  function `routeResolver : String → String → List Coord`;
- the per-invocation random UUID used for the map file name
  (`uuid.uuid4()` on line 195) as a string parameter `mapId`.

Python floats are embedded as rationals, `Optional` as `Option`, and the
untyped result dictionaries as an `Outcome` structure whose optional fields
mirror exactly the keys each dictionary literal in the source carries.
-/

namespace Carpooling

/-- A `(lat, lon)` coordinate pair (Python tuple of floats). -/
abbrev Coord : Type := ℚ × ℚ

/-- `class Location(BaseModel)` from `src/main.py` lines 45-47. -/
structure Location where
  address : String
  coordinates : Option Coord
deriving DecidableEq

/-- `class Passenger(BaseModel)` from `src/main.py` lines 49-52. -/
structure Passenger where
  name : String
  origin : Location
  destination : Location
deriving DecidableEq

/-- `class Driver(BaseModel)` from `src/main.py` lines 54-57.
`seats_available` is declared with `Field(gt=0)`; that validation constraint
is modelled separately in `validMatchRequest`. -/
structure Driver where
  origin : String
  destination : String
  seats_available : Int
deriving DecidableEq

/-- `class MatchRequest(BaseModel)` from `src/main.py` lines 59-62.
Note: `tolerance_km: float = 2.0` carries no pydantic constraint. -/
structure MatchRequest where
  driver : Driver
  passengers : List Passenger
  tolerance_km : ℚ
deriving DecidableEq

/-- The closed set of unmatched reasons appearing in the dictionary literals
of `match_passengers` (lines 156, 169, 190). -/
inductive Reason where
  | noSeats
  | geocodingFailed
  | notOnRoute
deriving DecidableEq

/-- One entry of `matched` or `unmatched`: the untyped result dictionaries of
`match_passengers`.  `origin_coords`/`destination_coords` are `none` exactly
when the corresponding dictionary literal omits those keys; `reason` is `none`
exactly for matched entries. -/
structure Outcome where
  name : String
  origin_address : String
  destination_address : String
  origin_coords : Option Coord
  destination_coords : Option Coord
  reason : Option Reason
deriving DecidableEq

/-- `class MatchResponse(BaseModel)` from `src/main.py` lines 64-68. -/
structure MatchResponse where
  matched_passengers : List Outcome
  unmatched_passengers : List Outcome
  seats_remaining : Int
  map_url : Option String
deriving DecidableEq

/-- The two `HTTPException`s the `/match/` endpoint can raise:
status 500 (lines 76, 93, 137) and status 404 (line 142). -/
inductive HttpError where
  | serverError (detail : String)
  | notFound (detail : String)
deriving DecidableEq

/-- `is_passenger_match` from `src/main.py` lines 86-89:
origin is near if some route point is within `tolerance_km` (inclusive `<=`),
destination likewise and independently; match iff both. -/
def is_passenger_match (haversine : Coord → Coord → ℚ) (driver_route : List Coord)
    (passenger_origin passenger_destination : Coord) (tolerance_km : ℚ) : Bool :=
  (driver_route.any fun point => decide (haversine passenger_origin point ≤ tolerance_km)) &&
  (driver_route.any fun point => decide (haversine passenger_destination point ≤ tolerance_km))

/-- Coordinate resolution for one `Location`, lines 161-162:
`p.origin.coordinates if p.origin.coordinates else geocode_address(p.origin.address)`.
A present coordinate pair is authoritative; otherwise the geocoder is consulted. -/
def resolveCoords (geocode : String → Option Coord) (loc : Location) : Option Coord :=
  match loc.coordinates with
  | some c => some c
  | none => geocode loc.address

/-- The dictionary appended at lines 152-157 (no seats left): no coordinate
keys, reason `"No seats available"`. -/
def noSeatsOutcome (p : Passenger) : Outcome :=
  ⟨p.name, p.origin.address, p.destination.address, none, none, some Reason.noSeats⟩

/-- The dictionary appended at lines 165-170 (resolution failure): no
coordinate keys, reason `"Could not geocode addresses"`. -/
def geocodeFailedOutcome (p : Passenger) : Outcome :=
  ⟨p.name, p.origin.address, p.destination.address, none, none, some Reason.geocodingFailed⟩

/-- The dictionary appended at lines 175-181 (accepted passenger): both
resolved coordinates, no reason key. -/
def matchedOutcome (p : Passenger) (o d : Coord) : Outcome :=
  ⟨p.name, p.origin.address, p.destination.address, some o, some d, none⟩

/-- The dictionary appended at lines 184-191 (proximity test failed): both
resolved coordinates, reason `"Not on driver's route"`. -/
def notOnRouteOutcome (p : Passenger) (o d : Coord) : Outcome :=
  ⟨p.name, p.origin.address, p.destination.address, some o, some d, some Reason.notOnRoute⟩

/-- The passenger-processing loop of `match_passengers`, lines 149-191:
a single pass in input order over the passenger list, threading the mutable
`seats_available` counter.  Returns `(matched, unmatched, seats_available)`.
The append order of the Python lists is preserved by consing onto the result
of the recursive call on the remaining passengers. -/
def match_loop (haversine : Coord → Coord → ℚ) (geocode : String → Option Coord)
    (driver_route : List Coord) (tolerance_km : ℚ) :
    List Passenger → Int → List Outcome × List Outcome × Int
  | [], seats => ([], [], seats)
  | p :: rest, seats =>
    if seats = 0 then
      let r := match_loop haversine geocode driver_route tolerance_km rest seats
      (r.1, noSeatsOutcome p :: r.2.1, r.2.2)
    else
      match resolveCoords geocode p.origin, resolveCoords geocode p.destination with
      | some o, some d =>
        if is_passenger_match haversine driver_route o d tolerance_km then
          let r := match_loop haversine geocode driver_route tolerance_km rest (seats - 1)
          (matchedOutcome p o d :: r.1, r.2.1, r.2.2)
        else
          let r := match_loop haversine geocode driver_route tolerance_km rest seats
          (r.1, notOnRouteOutcome p o d :: r.2.1, r.2.2)
      | _, _ =>
        let r := match_loop haversine geocode driver_route tolerance_km rest seats
        (r.1, geocodeFailedOutcome p :: r.2.1, r.2.2)

/-- Pydantic request validation: the only value constraint on a
`MatchRequest` is `seats_available: int = Field(gt=0)` (line 57).
`tolerance_km` has no constraint (line 62). -/
def validMatchRequest (req : MatchRequest) : Bool :=
  decide (0 < req.driver.seats_available)

/-- The map URL built at lines 125-127 and 198:
`map_path = f"static/carpool_map_{map_id}.html"`, then
`map_url = f"/static/{map_file}"`. -/
def map_url_for (mapId : String) : String :=
  "/static/carpool_map_" ++ mapId ++ ".html"

/-- The `/match/` endpoint `match_passengers`, lines 134-205.
`gmaps` says whether the Google Maps client was initialized; `mapId` is the
`uuid.uuid4()` value drawn at line 195.  The route comes from the external
`routeResolver`; an empty route raises 404 before the loop; otherwise the
loop runs and the response copies its three components plus the map URL
(the route is non-empty here, so `generate_map` never returns `None`). -/
def match_passengers (haversine : Coord → Coord → ℚ) (geocode : String → Option Coord)
    (routeResolver : String → String → List Coord) (gmaps : Bool) (mapId : String)
    (req : MatchRequest) : Except HttpError MatchResponse :=
  if gmaps = false then
    Except.error (HttpError.serverError "Google Maps API not initialized")
  else
    let driver_route := routeResolver req.driver.origin req.driver.destination
    if driver_route = [] then
      Except.error (HttpError.notFound "Could not find a route for the driver")
    else
      let r := match_loop haversine geocode driver_route req.tolerance_km
        req.passengers req.driver.seats_available
      Except.ok ⟨r.1, r.2.1, r.2.2, some (map_url_for mapId)⟩

/-- Whether a passenger resolves both endpoints and passes the proximity
test: the condition under which the loop body reaches the matched branch
(given a seat is left). -/
def geoMatches (haversine : Coord → Coord → ℚ) (geocode : String → Option Coord)
    (driver_route : List Coord) (tolerance_km : ℚ) (p : Passenger) : Bool :=
  match resolveCoords geocode p.origin, resolveCoords geocode p.destination with
  | some o, some d => is_passenger_match haversine driver_route o d tolerance_km
  | _, _ => false

/-- The matched entry produced for a passenger that resolves both endpoints
(the `getD` defaults are never reached for such a passenger). -/
def matchedOutcomeOf (geocode : String → Option Coord) (p : Passenger) : Outcome :=
  matchedOutcome p ((resolveCoords geocode p.origin).getD (0, 0))
    ((resolveCoords geocode p.destination).getD (0, 0))

/-- Identity of a passenger as echoed into every outcome dictionary. -/
def passengerKey (p : Passenger) : String × String × String :=
  (p.name, p.origin.address, p.destination.address)

/-- The echoed identity fields of an outcome entry. -/
def outcomeKey (o : Outcome) : String × String × String :=
  (o.name, o.origin_address, o.destination_address)

/-- The matching fields of a response, excluding the map URL. -/
def coreOf (resp : MatchResponse) : List Outcome × List Outcome × Int :=
  (resp.matched_passengers, resp.unmatched_passengers, resp.seats_remaining)

section LoopLemmas

variable (haversine : Coord → Coord → ℚ) (geocode : String → Option Coord)
variable (driver_route : List Coord) (tolerance_km : ℚ)

/-- With the seat counter at zero the loop classifies every remaining
passenger as `no-seats-available`, touching neither the geocoder nor the
route geometry. -/
theorem match_loop_zero (ps : List Passenger) :
    match_loop haversine geocode driver_route tolerance_km ps 0 =
      ([], ps.map noSeatsOutcome, 0) := by
  induction ps with
  | nil => rfl
  | cons p rest ih => simp [match_loop, ih]

/-- Step lemma: a passenger whose origin does not resolve. -/
theorem match_loop_cons_geofail₁ (p : Passenger) (rest : List Passenger) (seats : Int)
    (hs : seats ≠ 0) (ho : resolveCoords geocode p.origin = none) :
    match_loop haversine geocode driver_route tolerance_km (p :: rest) seats =
      ((match_loop haversine geocode driver_route tolerance_km rest seats).1,
       geocodeFailedOutcome p ::
         (match_loop haversine geocode driver_route tolerance_km rest seats).2.1,
       (match_loop haversine geocode driver_route tolerance_km rest seats).2.2) := by
  simp only [match_loop]
  rw [if_neg hs, ho]

/-- Step lemma: a passenger whose origin resolves but whose destination does
not. -/
theorem match_loop_cons_geofail₂ (p : Passenger) (rest : List Passenger) (seats : Int)
    (o : Coord) (hs : seats ≠ 0) (ho : resolveCoords geocode p.origin = some o)
    (hd : resolveCoords geocode p.destination = none) :
    match_loop haversine geocode driver_route tolerance_km (p :: rest) seats =
      ((match_loop haversine geocode driver_route tolerance_km rest seats).1,
       geocodeFailedOutcome p ::
         (match_loop haversine geocode driver_route tolerance_km rest seats).2.1,
       (match_loop haversine geocode driver_route tolerance_km rest seats).2.2) := by
  simp only [match_loop]
  rw [if_neg hs, ho, hd]

/-- Step lemma: a resolved passenger passing the proximity test consumes a
seat. -/
theorem match_loop_cons_matched (p : Passenger) (rest : List Passenger) (seats : Int)
    (o d : Coord) (hs : seats ≠ 0) (ho : resolveCoords geocode p.origin = some o)
    (hd : resolveCoords geocode p.destination = some d)
    (hm : is_passenger_match haversine driver_route o d tolerance_km = true) :
    match_loop haversine geocode driver_route tolerance_km (p :: rest) seats =
      (matchedOutcome p o d ::
         (match_loop haversine geocode driver_route tolerance_km rest (seats - 1)).1,
       (match_loop haversine geocode driver_route tolerance_km rest (seats - 1)).2.1,
       (match_loop haversine geocode driver_route tolerance_km rest (seats - 1)).2.2) := by
  simp only [match_loop]
  rw [if_neg hs, ho, hd]
  simp [hm]

/-- Step lemma: a resolved passenger failing the proximity test. -/
theorem match_loop_cons_notmatched (p : Passenger) (rest : List Passenger) (seats : Int)
    (o d : Coord) (hs : seats ≠ 0) (ho : resolveCoords geocode p.origin = some o)
    (hd : resolveCoords geocode p.destination = some d)
    (hm : is_passenger_match haversine driver_route o d tolerance_km = false) :
    match_loop haversine geocode driver_route tolerance_km (p :: rest) seats =
      ((match_loop haversine geocode driver_route tolerance_km rest seats).1,
       notOnRouteOutcome p o d ::
         (match_loop haversine geocode driver_route tolerance_km rest seats).2.1,
       (match_loop haversine geocode driver_route tolerance_km rest seats).2.2) := by
  simp only [match_loop]
  rw [if_neg hs, ho, hd]
  simp [hm]

/-- Every passenger receives exactly one outcome. -/
theorem match_loop_length (ps : List Passenger) (s : Int) :
    (match_loop haversine geocode driver_route tolerance_km ps s).1.length +
      (match_loop haversine geocode driver_route tolerance_km ps s).2.1.length =
      ps.length := by
  induction ps generalizing s with
  | nil => rfl
  | cons p rest ih =>
    by_cases hs : s = 0
    · subst hs
      rw [match_loop_zero]
      simp
    · cases ho : resolveCoords geocode p.origin with
      | none =>
        rw [match_loop_cons_geofail₁ haversine geocode driver_route tolerance_km p rest s hs ho]
        have := ih s
        simp only [List.length_cons]
        omega
      | some o =>
        cases hd : resolveCoords geocode p.destination with
        | none =>
          rw [match_loop_cons_geofail₂ haversine geocode driver_route tolerance_km
            p rest s o hs ho hd]
          have := ih s
          simp only [List.length_cons]
          omega
        | some d =>
          by_cases hm : is_passenger_match haversine driver_route o d tolerance_km = true
          · rw [match_loop_cons_matched haversine geocode driver_route tolerance_km
              p rest s o d hs ho hd hm]
            have := ih (s - 1)
            simp only [List.length_cons]
            omega
          · rw [match_loop_cons_notmatched haversine geocode driver_route tolerance_km
              p rest s o d hs ho hd (Bool.eq_false_iff.mpr hm)]
            have := ih s
            simp only [List.length_cons]
            omega

/-- The final seat counter equals the initial one minus the number of
matched passengers. -/
theorem match_loop_seats (ps : List Passenger) (s : Int) :
    (match_loop haversine geocode driver_route tolerance_km ps s).2.2 =
      s - (match_loop haversine geocode driver_route tolerance_km ps s).1.length := by
  induction ps generalizing s with
  | nil => simp [match_loop]
  | cons p rest ih =>
    by_cases hs : s = 0
    · subst hs
      rw [match_loop_zero]
      simp
    · cases ho : resolveCoords geocode p.origin with
      | none =>
        rw [match_loop_cons_geofail₁ haversine geocode driver_route tolerance_km p rest s hs ho]
        exact ih s
      | some o =>
        cases hd : resolveCoords geocode p.destination with
        | none =>
          rw [match_loop_cons_geofail₂ haversine geocode driver_route tolerance_km
            p rest s o hs ho hd]
          exact ih s
        | some d =>
          by_cases hm : is_passenger_match haversine driver_route o d tolerance_km = true
          · rw [match_loop_cons_matched haversine geocode driver_route tolerance_km
              p rest s o d hs ho hd hm]
            have := ih (s - 1)
            simp only [List.length_cons]
            omega
          · rw [match_loop_cons_notmatched haversine geocode driver_route tolerance_km
              p rest s o d hs ho hd (Bool.eq_false_iff.mpr hm)]
            exact ih s

/-- Starting from a non-negative seat budget the counter never goes
negative. -/
theorem match_loop_seats_nonneg (ps : List Passenger) (s : Int) (hs0 : 0 ≤ s) :
    0 ≤ (match_loop haversine geocode driver_route tolerance_km ps s).2.2 := by
  induction ps generalizing s with
  | nil => simpa [match_loop] using hs0
  | cons p rest ih =>
    by_cases hs : s = 0
    · subst hs
      rw [match_loop_zero]
    · cases ho : resolveCoords geocode p.origin with
      | none =>
        rw [match_loop_cons_geofail₁ haversine geocode driver_route tolerance_km p rest s hs ho]
        exact ih s hs0
      | some o =>
        cases hd : resolveCoords geocode p.destination with
        | none =>
          rw [match_loop_cons_geofail₂ haversine geocode driver_route tolerance_km
            p rest s o hs ho hd]
          exact ih s hs0
        | some d =>
          by_cases hm : is_passenger_match haversine driver_route o d tolerance_km = true
          · rw [match_loop_cons_matched haversine geocode driver_route tolerance_km
              p rest s o d hs ho hd hm]
            exact ih (s - 1) (by omega)
          · rw [match_loop_cons_notmatched haversine geocode driver_route tolerance_km
              p rest s o d hs ho hd (Bool.eq_false_iff.mpr hm)]
            exact ih s hs0

/-- With seat budget `k`, the matched list is exactly the first `k`
passengers (in input order) that resolve and pass the proximity test. -/
theorem match_loop_matched (k : ℕ) (ps : List Passenger) :
    (match_loop haversine geocode driver_route tolerance_km ps (k : Int)).1 =
      ((ps.filter (geoMatches haversine geocode driver_route tolerance_km)).take k).map
        (matchedOutcomeOf geocode) := by
  induction ps generalizing k with
  | nil => simp [match_loop]
  | cons p rest ih =>
    cases k with
    | zero =>
      rw [show ((0 : ℕ) : Int) = 0 from rfl, match_loop_zero]
      simp
    | succ j =>
      have hs : (((j + 1 : ℕ)) : Int) ≠ 0 := by exact_mod_cast Nat.succ_ne_zero j
      cases ho : resolveCoords geocode p.origin with
      | none =>
        have hgm : geoMatches haversine geocode driver_route tolerance_km p = false := by
          simp [geoMatches, ho]
        rw [match_loop_cons_geofail₁ haversine geocode driver_route tolerance_km
          p rest _ hs ho, List.filter_cons, if_neg (by simp [hgm])]
        exact ih (j + 1)
      | some o =>
        cases hd : resolveCoords geocode p.destination with
        | none =>
          have hgm : geoMatches haversine geocode driver_route tolerance_km p = false := by
            simp [geoMatches, ho, hd]
          rw [match_loop_cons_geofail₂ haversine geocode driver_route tolerance_km
            p rest _ o hs ho hd, List.filter_cons, if_neg (by simp [hgm])]
          exact ih (j + 1)
        | some d =>
          by_cases hm : is_passenger_match haversine driver_route o d tolerance_km = true
          · have hgm : geoMatches haversine geocode driver_route tolerance_km p = true := by
              simp [geoMatches, ho, hd, hm]
            have hcast : (((j + 1 : ℕ)) : Int) - 1 = (j : ℕ) := by push_cast; ring
            have hmOf : matchedOutcomeOf geocode p = matchedOutcome p o d := by
              simp [matchedOutcomeOf, ho, hd]
            rw [match_loop_cons_matched haversine geocode driver_route tolerance_km
              p rest _ o d hs ho hd hm, hcast, List.filter_cons, if_pos (by simp [hgm]),
              List.take_succ_cons, List.map_cons, hmOf, ih j]
          · have hgm : geoMatches haversine geocode driver_route tolerance_km p = false := by
              simp [geoMatches, ho, hd, hm]
            rw [match_loop_cons_notmatched haversine geocode driver_route tolerance_km
              p rest _ o d hs ho hd (Bool.eq_false_iff.mpr hm), List.filter_cons,
              if_neg (by simp [hgm])]
            exact ih (j + 1)

/-- With seat budget `k`, every resolving and proximity-passing passenger
beyond the first `k` is classified `no-seats-available`: their
`no-seats` entries appear, in input order, within the unmatched list. -/
theorem match_loop_overflow (k : ℕ) (ps : List Passenger) :
    ((((ps.filter (geoMatches haversine geocode driver_route tolerance_km)).drop k)).map
        noSeatsOutcome).Sublist
      (match_loop haversine geocode driver_route tolerance_km ps (k : Int)).2.1 := by
  induction ps generalizing k with
  | nil => simp [match_loop]
  | cons p rest ih =>
    cases k with
    | zero =>
      rw [show ((0 : ℕ) : Int) = 0 from rfl, match_loop_zero]
      simp only [List.drop_zero]
      exact List.Sublist.map noSeatsOutcome (List.filter_sublist _)
    | succ j =>
      have hs : (((j + 1 : ℕ)) : Int) ≠ 0 := by exact_mod_cast Nat.succ_ne_zero j
      cases ho : resolveCoords geocode p.origin with
      | none =>
        have hgm : geoMatches haversine geocode driver_route tolerance_km p = false := by
          simp [geoMatches, ho]
        rw [match_loop_cons_geofail₁ haversine geocode driver_route tolerance_km
          p rest _ hs ho, List.filter_cons, if_neg (by simp [hgm])]
        exact (ih (j + 1)).cons _
      | some o =>
        cases hd : resolveCoords geocode p.destination with
        | none =>
          have hgm : geoMatches haversine geocode driver_route tolerance_km p = false := by
            simp [geoMatches, ho, hd]
          rw [match_loop_cons_geofail₂ haversine geocode driver_route tolerance_km
            p rest _ o hs ho hd, List.filter_cons, if_neg (by simp [hgm])]
          exact (ih (j + 1)).cons _
        | some d =>
          by_cases hm : is_passenger_match haversine driver_route o d tolerance_km = true
          · have hgm : geoMatches haversine geocode driver_route tolerance_km p = true := by
              simp [geoMatches, ho, hd, hm]
            have hcast : (((j + 1 : ℕ)) : Int) - 1 = (j : ℕ) := by push_cast; ring
            rw [match_loop_cons_matched haversine geocode driver_route tolerance_km
              p rest _ o d hs ho hd hm, hcast, List.filter_cons, if_pos (by simp [hgm]),
              List.drop_succ_cons]
            exact ih j
          · have hgm : geoMatches haversine geocode driver_route tolerance_km p = false := by
              simp [geoMatches, ho, hd, hm]
            rw [match_loop_cons_notmatched haversine geocode driver_route tolerance_km
              p rest _ o d hs ho hd (Bool.eq_false_iff.mpr hm), List.filter_cons,
              if_neg (by simp [hgm])]
            exact (ih (j + 1)).cons _

end LoopLemmas

/-- Unfolding of the endpoint: initialization check, then route check, then
the loop result packaged with the map URL. -/
theorem match_passengers_shape (haversine : Coord → Coord → ℚ)
    (geocode : String → Option Coord) (routeResolver : String → String → List Coord)
    (gmaps : Bool) (mapId : String) (req : MatchRequest) :
    match_passengers haversine geocode routeResolver gmaps mapId req =
      if gmaps = false then
        Except.error (HttpError.serverError "Google Maps API not initialized")
      else if routeResolver req.driver.origin req.driver.destination = [] then
        Except.error (HttpError.notFound "Could not find a route for the driver")
      else
        Except.ok
          ⟨(match_loop haversine geocode (routeResolver req.driver.origin req.driver.destination)
              req.tolerance_km req.passengers req.driver.seats_available).1,
           (match_loop haversine geocode (routeResolver req.driver.origin req.driver.destination)
              req.tolerance_km req.passengers req.driver.seats_available).2.1,
           (match_loop haversine geocode (routeResolver req.driver.origin req.driver.destination)
              req.tolerance_km req.passengers req.driver.seats_available).2.2,
           some (map_url_for mapId)⟩ := rfl

/-- A distance function that is identically zero (every point is on every
route); used only to instantiate theorems at concrete inputs. -/
def havZero : Coord → Coord → ℚ := fun _ _ => 0

/-- A distance function that is identically one; used only to instantiate
theorems at concrete inputs. -/
def havOne : Coord → Coord → ℚ := fun _ _ => 1

/-- A concrete passenger with both coordinates supplied. -/
def demoPassenger (n : String) : Passenger :=
  ⟨n, ⟨"origin", some (0, 0)⟩, ⟨"destination", some (0, 0)⟩⟩

/-- A concrete request with one available seat and no passengers. -/
def demoRequest : MatchRequest := ⟨⟨"A", "B", 1⟩, [], 1⟩

/-- A concrete request whose tolerance is non-positive but whose seat count
passes the pydantic validation. -/
def badTolRequest : MatchRequest := ⟨⟨"A", "B", 1⟩, [demoPassenger "P"], 0⟩

/-- C1: the proximity test matches a passenger iff some waypoint of the route
is within the tolerance of the origin and some (independently chosen)
waypoint is within the tolerance of the destination; the comparison is
inclusive, so a distance exactly equal to the tolerance counts as near.
Stated for every route, hence in particular for every non-empty one, and for
every distance function, hence in particular for the external haversine. -/
theorem is_passenger_match_iff (haversine : Coord → Coord → ℚ) (driver_route : List Coord)
    (o d : Coord) (tol : ℚ) :
    is_passenger_match haversine driver_route o d tol = true ↔
      ((∃ pt ∈ driver_route, haversine o pt ≤ tol) ∧
       (∃ pt ∈ driver_route, haversine d pt ≤ tol)) := by
  simp [is_passenger_match, List.any_eq_true]

/-- C2: with seat budget `k` and more than `k` passengers that resolve and
pass the proximity test, the matched list is exactly the first `k` such
passengers in input order, and the `no-seats-available` entries of all later
geometrically matching passengers appear (still in input order) in the
unmatched list; passengers are never reordered or compared against each
other. -/
theorem first_k_matching_win_seats (haversine : Coord → Coord → ℚ)
    (geocode : String → Option Coord) (driver_route : List Coord) (tolerance_km : ℚ)
    (k : ℕ) (ps : List Passenger)
    (hk : k < (ps.filter (geoMatches haversine geocode driver_route tolerance_km)).length) :
    (match_loop haversine geocode driver_route tolerance_km ps (k : Int)).1 =
      ((ps.filter (geoMatches haversine geocode driver_route tolerance_km)).take k).map
        (matchedOutcomeOf geocode) ∧
    ((((ps.filter (geoMatches haversine geocode driver_route tolerance_km)).drop k)).map
        noSeatsOutcome).Sublist
      (match_loop haversine geocode driver_route tolerance_km ps (k : Int)).2.1 :=
  ⟨match_loop_matched haversine geocode driver_route tolerance_km k ps,
   match_loop_overflow haversine geocode driver_route tolerance_km k ps⟩

/-- Witness for C2: budget 1, two passengers both at distance 0 from the
single waypoint; the second geometrically matching passenger exists, the
first wins the seat. -/
theorem first_k_matching_win_seats_witness :
    1 < ([demoPassenger "A", demoPassenger "B"].filter
        (geoMatches havZero (fun _ => none) [(0, 0)] 1)).length ∧
    ((match_loop havZero (fun _ => none) [(0, 0)] 1
        [demoPassenger "A", demoPassenger "B"] ((1 : ℕ) : Int)).1 =
      (([demoPassenger "A", demoPassenger "B"].filter
          (geoMatches havZero (fun _ => none) [(0, 0)] 1)).take 1).map
        (matchedOutcomeOf (fun _ => none)) ∧
    (((([demoPassenger "A", demoPassenger "B"].filter
          (geoMatches havZero (fun _ => none) [(0, 0)] 1)).drop 1)).map
        noSeatsOutcome).Sublist
      (match_loop havZero (fun _ => none) [(0, 0)] 1
        [demoPassenger "A", demoPassenger "B"] ((1 : ℕ) : Int)).2.1) :=
  ⟨by decide,
   first_k_matching_win_seats havZero (fun _ => none) [(0, 0)] 1 1
     [demoPassenger "A", demoPassenger "B"] (by decide)⟩

/-- C3: a passenger reached with the seat counter at zero is classified
`no-seats-available`; the whole remaining run performs no geocoding and no
proximity computation (the result does not depend on the distance function,
the geocoder, the route, or the tolerance), regardless of whether any such
passenger would otherwise have matched. -/
theorem seat_exhaustion_short_circuits (haversine haversine' : Coord → Coord → ℚ)
    (geocode geocode' : String → Option Coord) (driver_route driver_route' : List Coord)
    (tolerance_km tolerance_km' : ℚ) (ps : List Passenger) :
    match_loop haversine geocode driver_route tolerance_km ps 0 =
      ([], ps.map noSeatsOutcome, 0) ∧
    match_loop haversine geocode driver_route tolerance_km ps 0 =
      match_loop haversine' geocode' driver_route' tolerance_km' ps 0 :=
  ⟨match_loop_zero haversine geocode driver_route tolerance_km ps, by
    rw [match_loop_zero, match_loop_zero]⟩

/-- C4: every passenger receives exactly one terminal classification:
matched plus unmatched counts equal the passenger count, for every seat
budget. -/
theorem classification_exhaustive (haversine : Coord → Coord → ℚ)
    (geocode : String → Option Coord) (driver_route : List Coord) (tolerance_km : ℚ)
    (ps : List Passenger) (s : Int) :
    (match_loop haversine geocode driver_route tolerance_km ps s).1.length +
      (match_loop haversine geocode driver_route tolerance_km ps s).2.1.length =
      ps.length :=
  match_loop_length haversine geocode driver_route tolerance_km ps s

/-- C5: the reported remaining seat count equals the initial budget minus
the number of matched passengers; the same equation holds after any prefix
of the loop (so the counter drops by exactly one per accepted passenger),
and starting from a non-negative budget the counter is non-negative at every
point of the loop. -/
theorem seats_remaining_invariant (haversine : Coord → Coord → ℚ)
    (geocode : String → Option Coord) (driver_route : List Coord) (tolerance_km : ℚ)
    (ps : List Passenger) (s : Int) (i : ℕ) (hs : 0 ≤ s) :
    (match_loop haversine geocode driver_route tolerance_km ps s).2.2 =
      s - (match_loop haversine geocode driver_route tolerance_km ps s).1.length ∧
    (match_loop haversine geocode driver_route tolerance_km (ps.take i) s).2.2 =
      s - (match_loop haversine geocode driver_route tolerance_km (ps.take i) s).1.length ∧
    0 ≤ (match_loop haversine geocode driver_route tolerance_km (ps.take i) s).2.2 :=
  ⟨match_loop_seats haversine geocode driver_route tolerance_km ps s,
   match_loop_seats haversine geocode driver_route tolerance_km (ps.take i) s,
   match_loop_seats_nonneg haversine geocode driver_route tolerance_km (ps.take i) s hs⟩

/-- Witness for C5: one seat, one matching passenger, prefix length 1. -/
theorem seats_remaining_invariant_witness :
    (0 : Int) ≤ 1 ∧
    ((match_loop havZero (fun _ => none) [(0, 0)] 1 [demoPassenger "A"] 1).2.2 =
      1 - (match_loop havZero (fun _ => none) [(0, 0)] 1 [demoPassenger "A"] 1).1.length ∧
    (match_loop havZero (fun _ => none) [(0, 0)] 1 ([demoPassenger "A"].take 1) 1).2.2 =
      1 - (match_loop havZero (fun _ => none) [(0, 0)] 1
        ([demoPassenger "A"].take 1) 1).1.length ∧
    0 ≤ (match_loop havZero (fun _ => none) [(0, 0)] 1 ([demoPassenger "A"].take 1) 1).2.2) :=
  ⟨by decide,
   seats_remaining_invariant havZero (fun _ => none) [(0, 0)] 1 [demoPassenger "A"] 1 1
     (by decide)⟩

/-- C6: with a seat still free, a passenger with an unresolved origin or
destination is classified unmatched with reason `geocoding-failed` and the
entry carries no resolved coordinates, while a passenger resolving to `o`
and `d` but failing the proximity test is classified unmatched with reason
`not-on-route` and the entry carries both resolved coordinates. -/
theorem unmatched_reason_coordinates (haversine : Coord → Coord → ℚ)
    (geocode : String → Option Coord) (driver_route : List Coord) (tolerance_km : ℚ)
    (p : Passenger) (rest : List Passenger) (seats : Int) (hs : seats ≠ 0) :
    ((resolveCoords geocode p.origin = none ∨ resolveCoords geocode p.destination = none) →
      (match_loop haversine geocode driver_route tolerance_km (p :: rest) seats).2.1.head? =
        some ⟨p.name, p.origin.address, p.destination.address, none, none,
          some Reason.geocodingFailed⟩) ∧
    (∀ o d, resolveCoords geocode p.origin = some o →
      resolveCoords geocode p.destination = some d →
      is_passenger_match haversine driver_route o d tolerance_km = false →
      (match_loop haversine geocode driver_route tolerance_km (p :: rest) seats).2.1.head? =
        some ⟨p.name, p.origin.address, p.destination.address, some o, some d,
          some Reason.notOnRoute⟩) := by
  constructor
  · rintro (ho | hd)
    · rw [match_loop_cons_geofail₁ haversine geocode driver_route tolerance_km p rest seats hs ho]
      rfl
    · cases ho : resolveCoords geocode p.origin with
      | none =>
        rw [match_loop_cons_geofail₁ haversine geocode driver_route tolerance_km
          p rest seats hs ho]
        rfl
      | some o =>
        rw [match_loop_cons_geofail₂ haversine geocode driver_route tolerance_km
          p rest seats o hs ho hd]
        rfl
  · intro o d ho hd hm
    rw [match_loop_cons_notmatched haversine geocode driver_route tolerance_km
      p rest seats o d hs ho hd hm]
    rfl

/-- Witness for C6: a passenger whose origin does not geocode yields a
coordinate-free `geocoding-failed` entry; a resolved passenger one unit from
the route with tolerance zero yields a `not-on-route` entry carrying both
coordinates. -/
theorem unmatched_reason_coordinates_witness :
    (1 : Int) ≠ 0 ∧
    (match_loop havZero (fun _ => none) [(0, 0)] 1
        [⟨"C", ⟨"x", none⟩, ⟨"y", none⟩⟩] 1).2.1.head? =
      some ⟨"C", "x", "y", none, none, some Reason.geocodingFailed⟩ ∧
    (match_loop havOne (fun _ => none) [(0, 0)] 0 [demoPassenger "D"] 1).2.1.head? =
      some ⟨"D", "origin", "destination", some (0, 0), some (0, 0),
        some Reason.notOnRoute⟩ :=
  ⟨by decide,
   (unmatched_reason_coordinates havZero (fun _ => none) [(0, 0)] 1
      ⟨"C", ⟨"x", none⟩, ⟨"y", none⟩⟩ [] 1 (by decide)).1 (Or.inl rfl),
   (unmatched_reason_coordinates havOne (fun _ => none) [(0, 0)] 0
      (demoPassenger "D") [] 1 (by decide)).2 (0, 0) (0, 0) rfl rfl (by decide)⟩

/-- C7: when the route resolver returns an empty route, the request fails
with the 404 route-level error before any passenger is processed, and in
particular the result is never a successful (all-unmatched or otherwise)
classification. -/
theorem empty_route_request_fails (haversine : Coord → Coord → ℚ)
    (geocode : String → Option Coord) (routeResolver : String → String → List Coord)
    (mapId : String) (req : MatchRequest)
    (hroute : routeResolver req.driver.origin req.driver.destination = []) :
    match_passengers haversine geocode routeResolver true mapId req =
      Except.error (HttpError.notFound "Could not find a route for the driver") ∧
    ∀ resp, match_passengers haversine geocode routeResolver true mapId req ≠
      Except.ok resp := by
  have h1 : match_passengers haversine geocode routeResolver true mapId req =
      Except.error (HttpError.notFound "Could not find a route for the driver") := by
    rw [match_passengers_shape]
    simp [hroute]
  exact ⟨h1, fun resp hcon => by rw [h1] at hcon; exact Except.noConfusion hcon⟩

/-- Witness for C7: a resolver that finds no route makes the request fail
with the 404 error. -/
theorem empty_route_request_fails_witness :
    ((fun _ _ => ([] : List Coord)) demoRequest.driver.origin
        demoRequest.driver.destination = []) ∧
    match_passengers havZero (fun _ => none) (fun _ _ => []) true "m" demoRequest =
      Except.error (HttpError.notFound "Could not find a route for the driver") :=
  ⟨rfl,
   (empty_route_request_fails havZero (fun _ => none) (fun _ _ => []) "m" demoRequest rfl).1⟩

/-- C8 counterexample: a request with tolerance 0 (non-positive) passes the
pydantic validation (which constrains only `seats_available`) and is run
through the passenger loop, even producing a successful match for a
passenger at distance exactly 0 — it is not rejected as an
invalid-configuration error. -/
theorem nonpositive_tolerance_accepted_cex :
    badTolRequest.tolerance_km ≤ 0 ∧
    validMatchRequest badTolRequest = true ∧
    match_passengers havZero (fun _ => none) (fun _ _ => [(0, 0)]) true "m" badTolRequest =
      Except.ok ⟨[matchedOutcome (demoPassenger "P") (0, 0) (0, 0)], [], 0,
        some "/static/carpool_map_m.html"⟩ := by
  refine ⟨by norm_num [badTolRequest], rfl, ?_⟩
  rfl

/-- C8 amended: a non-positive tolerance is not rejected: request validation
only requires `seats_available > 0`, so a request with `tolerance_km ≤ 0` is
silently accepted and its passenger loop runs with that tolerance (with a
negative tolerance nothing is ever near; with tolerance 0 a passenger at
distance exactly 0 still matches). -/
theorem nonpositive_tolerance_not_rejected (haversine : Coord → Coord → ℚ)
    (geocode : String → Option Coord) (routeResolver : String → String → List Coord)
    (mapId : String) (req : MatchRequest) (htol : req.tolerance_km ≤ 0)
    (hval : validMatchRequest req = true)
    (hroute : routeResolver req.driver.origin req.driver.destination ≠ []) :
    match_passengers haversine geocode routeResolver true mapId req =
      Except.ok
        ⟨(match_loop haversine geocode (routeResolver req.driver.origin req.driver.destination)
            req.tolerance_km req.passengers req.driver.seats_available).1,
         (match_loop haversine geocode (routeResolver req.driver.origin req.driver.destination)
            req.tolerance_km req.passengers req.driver.seats_available).2.1,
         (match_loop haversine geocode (routeResolver req.driver.origin req.driver.destination)
            req.tolerance_km req.passengers req.driver.seats_available).2.2,
         some (map_url_for mapId)⟩ := by
  rw [match_passengers_shape]
  simp [hroute]

/-- Witness for C8 amended: the concrete zero-tolerance request is accepted
and processed by the loop. -/
theorem nonpositive_tolerance_not_rejected_witness :
    badTolRequest.tolerance_km ≤ 0 ∧
    validMatchRequest badTolRequest = true ∧
    ((fun _ _ => [((0 : ℚ), (0 : ℚ))]) badTolRequest.driver.origin
        badTolRequest.driver.destination ≠ []) ∧
    match_passengers havZero (fun _ => none) (fun _ _ => [(0, 0)]) true "m" badTolRequest =
      Except.ok
        ⟨(match_loop havZero (fun _ => none)
            ((fun _ _ => [((0 : ℚ), (0 : ℚ))]) badTolRequest.driver.origin
              badTolRequest.driver.destination)
            badTolRequest.tolerance_km badTolRequest.passengers
            badTolRequest.driver.seats_available).1,
         (match_loop havZero (fun _ => none)
            ((fun _ _ => [((0 : ℚ), (0 : ℚ))]) badTolRequest.driver.origin
              badTolRequest.driver.destination)
            badTolRequest.tolerance_km badTolRequest.passengers
            badTolRequest.driver.seats_available).2.1,
         (match_loop havZero (fun _ => none)
            ((fun _ _ => [((0 : ℚ), (0 : ℚ))]) badTolRequest.driver.origin
              badTolRequest.driver.destination)
            badTolRequest.tolerance_km badTolRequest.passengers
            badTolRequest.driver.seats_available).2.2,
         some (map_url_for "m")⟩ :=
  ⟨by norm_num [badTolRequest], rfl, by simp,
   nonpositive_tolerance_not_rejected havZero (fun _ => none) (fun _ _ => [(0, 0)]) "m"
     badTolRequest (by norm_num [badTolRequest]) rfl (by simp)⟩

/-- C9 counterexample: two invocations with identical route, passengers,
seat budget and tolerance but distinct per-invocation UUIDs (line 195 draws
a fresh `uuid.uuid4()` each call) produce different responses — the
`map_url` field embeds the random UUID, so the full response is not
invocation-invariant. -/
theorem response_not_invocation_invariant_cex :
    match_passengers havZero (fun _ => none) (fun _ _ => [(0, 0)]) true "1111" demoRequest ≠
      match_passengers havZero (fun _ => none) (fun _ _ => [(0, 0)]) true "2222" demoRequest := by
  simp [match_passengers_shape, map_url_for, match_loop, demoRequest]

/-- C9 amended: the matching fields of the response — the matched list, the
unmatched list with its reasons, and the remaining seat count — are
identical across invocations with identical route, passenger list, seat
budget and tolerance; only the `map_url` field differs, embedding the fresh
random UUID drawn per invocation. -/
theorem match_core_deterministic (haversine : Coord → Coord → ℚ)
    (geocode : String → Option Coord) (routeResolver : String → String → List Coord)
    (gmaps : Bool) (mapId₁ mapId₂ : String) (req : MatchRequest) :
    Except.map coreOf (match_passengers haversine geocode routeResolver gmaps mapId₁ req) =
      Except.map coreOf (match_passengers haversine geocode routeResolver gmaps mapId₂ req) := by
  rw [match_passengers_shape, match_passengers_shape]
  by_cases hg : gmaps = false
  · simp [hg]
  · by_cases hr : routeResolver req.driver.origin req.driver.destination = []
    · simp [hg, hr]
    · simp [hg, hr, Except.map, coreOf]

/-- C10: the matched and unmatched lists each preserve input order: the
echoed identity fields of each list form an ordered subsequence of the
input passenger list, for every seat budget. -/
theorem outputs_preserve_input_order (haversine : Coord → Coord → ℚ)
    (geocode : String → Option Coord) (driver_route : List Coord) (tolerance_km : ℚ)
    (ps : List Passenger) (s : Int) :
    ((match_loop haversine geocode driver_route tolerance_km ps s).1.map outcomeKey).Sublist
      (ps.map passengerKey) ∧
    ((match_loop haversine geocode driver_route tolerance_km ps s).2.1.map outcomeKey).Sublist
      (ps.map passengerKey) := by
  induction ps generalizing s with
  | nil => simp [match_loop]
  | cons p rest ih =>
    by_cases hs : s = 0
    · subst hs
      rw [match_loop_zero]
      refine ⟨by simp, ?_⟩
      have hmap : ((p :: rest).map noSeatsOutcome).map outcomeKey =
          (p :: rest).map passengerKey := by
        simp only [List.map_map]
        rfl
      rw [hmap]
    · cases ho : resolveCoords geocode p.origin with
      | none =>
        rw [match_loop_cons_geofail₁ haversine geocode driver_route tolerance_km p rest s hs ho]
        exact ⟨(ih s).1.cons _, by
          rw [List.map_cons, List.map_cons]
          exact (ih s).2.cons₂ _⟩
      | some o =>
        cases hd : resolveCoords geocode p.destination with
        | none =>
          rw [match_loop_cons_geofail₂ haversine geocode driver_route tolerance_km
            p rest s o hs ho hd]
          exact ⟨(ih s).1.cons _, by
            rw [List.map_cons, List.map_cons]
            exact (ih s).2.cons₂ _⟩
        | some d =>
          by_cases hm : is_passenger_match haversine driver_route o d tolerance_km = true
          · rw [match_loop_cons_matched haversine geocode driver_route tolerance_km
              p rest s o d hs ho hd hm]
            exact ⟨by
              rw [List.map_cons, List.map_cons]
              exact (ih (s - 1)).1.cons₂ _, (ih (s - 1)).2.cons _⟩
          · rw [match_loop_cons_notmatched haversine geocode driver_route tolerance_km
              p rest s o d hs ho hd (Bool.eq_false_iff.mpr hm)]
            exact ⟨(ih s).1.cons _, by
              rw [List.map_cons, List.map_cons]
              exact (ih s).2.cons₂ _⟩

end Carpooling
